import Mathlib

/-!
Shallow embedding of the resilient LLM call gateway of this repository:
`src/core/llm_client.py` (RateLimiter, CircuitBreaker, BudgetTracker,
`call_llm`, `_deterministic_fallback`) and `src/core/vertex_ai_client.py`
(`VertexAIClient.call_model`, `_rate_limit_acquire`, `_track_cost`,
`_fallback_response`).

Python floats (times, dollar amounts) are modelled as exact rationals; every
`time.time()` read is passed in as an explicit parameter; provider outcomes
(the wrapped call returning or raising) are supplied per attempt as
environment inputs.  Leading underscores of Python method names are dropped.
-/

/-- Python `a if a <= b else b`, i.e. `min` on floats, written so that the
kernel can evaluate it on concrete rationals. -/
def rmin (a b : ℚ) : ℚ := if a ≤ b then a else b

/-- Prefix test over character lists, structurally recursive. -/
def charsPre : List Char → List Char → Bool
  | [], _ => true
  | _ :: _, [] => false
  | a :: as, b :: bs => a == b && charsPre as bs

/-- Substring containment over character lists. -/
def charsContain (hay needl : List Char) : Bool :=
  match hay with
  | [] => needl.isEmpty
  | _ :: rest => charsPre needl hay || charsContain rest needl

/-- Python `needl in s` for strings (substring containment). -/
def strIn (needl s : String) : Bool := charsContain s.data needl.data

/-- Python `s.lower()` (ASCII case folding suffices for the keyword routing). -/
def pyLower (s : String) : String := ⟨s.data.map Char.toLower⟩

/-- Python `len(s.split())`: count maximal non-whitespace runs. -/
def wordCountAux : Bool → List Char → ℕ
  | _, [] => 0
  | inw, c :: cs =>
    if c.isWhitespace then wordCountAux false cs
    else (if inw then 0 else 1) + wordCountAux true cs

/-- Python `len(s.split())`. -/
def pyWordCount (s : String) : ℕ := wordCountAux false s.data

/-! ## RateLimiter (src/core/llm_client.py, lines 26-51) -/

structure RateLimiter where
  calls_per_minute : ℚ
  tokens : ℚ
  max_tokens : ℚ
  last_refill : ℚ
  deriving Repr, DecidableEq

/-- Embedding of `RateLimiter.__init__`: tokens and capacity both start at `calls_per_minute`. -/
def RateLimiter.init (cpm : ℚ) (now : ℚ) : RateLimiter :=
  { calls_per_minute := cpm, tokens := cpm, max_tokens := cpm, last_refill := now }

/-- Embedding of `RateLimiter._refill`: add `elapsed * (calls_per_minute / 60)` tokens,
capped at `max_tokens`. -/
def RateLimiter.refill (rl : RateLimiter) (now : ℚ) : RateLimiter :=
  let elapsed := now - rl.last_refill
  let tokens_to_add := elapsed * (rl.calls_per_minute / 60)
  { rl with tokens := rmin rl.max_tokens (rl.tokens + tokens_to_add), last_refill := now }

/-- Embedding of `RateLimiter.acquire`: refill, then grant (decrementing by 1) iff at least
one token is available; otherwise deny, returning at once. -/
def RateLimiter.acquire (rl : RateLimiter) (now : ℚ) : Bool × RateLimiter :=
  let rl' := rl.refill now
  if 1 ≤ rl'.tokens then (true, { rl' with tokens := rl'.tokens - 1 })
  else (false, rl')

/-- Fold a sequence of `acquire` calls at the given wall-clock times. -/
def RateLimiter.acquireSeq (rl : RateLimiter) : List ℚ → RateLimiter
  | [] => rl
  | t :: ts => ((rl.acquire t).2).acquireSeq ts

/-- The spec's §4.1 contract, written from its words: on each call first
`tokens = min(capacity, tokens + elapsed_seconds * (capacity / 60))`, then if
`tokens ≥ 1` decrement by 1 and return granted, else return denied without
blocking.  (`capacity` is the spec's name for the bucket maximum.) -/
def rateLimiterAcquireSpec (rl : RateLimiter) (now : ℚ) : Bool × RateLimiter :=
  let elapsed := now - rl.last_refill
  let t := rmin rl.max_tokens (rl.tokens + elapsed * (rl.max_tokens / 60))
  if 1 ≤ t then
    (true, { rl with tokens := t - 1, last_refill := now })
  else
    (false, { rl with tokens := t, last_refill := now })

/-! ## CircuitBreaker (src/core/llm_client.py, lines 55-87) -/

inductive CBState where
  | CLOSED
  | OPEN
  | HALF_OPEN
  deriving Repr, DecidableEq

structure CircuitBreaker where
  failure_threshold : ℕ
  timeout : ℚ
  failure_count : ℕ
  last_failure_time : Option ℚ
  state : CBState
  deriving Repr, DecidableEq

/-- Embedding of `CircuitBreaker.__init__`. -/
def CircuitBreaker.init (th : ℕ) (tmo : ℚ) : CircuitBreaker :=
  { failure_threshold := th
    timeout := tmo
    failure_count := 0
    last_failure_time := none
    state := CBState.CLOSED }

/-- First locked section of `CircuitBreaker.call` (lines 68-73): when OPEN,
either move to HALF_OPEN (cool-down elapsed) or raise "Circuit breaker is
OPEN" (`none` here) without dispatching the wrapped operation.  The
`last_failure_time = none` arm is unreachable while OPEN (Python would raise a
TypeError out of the guard, likewise without dispatching the operation), so it
is also modelled as a guard rejection. -/
def CircuitBreaker.guardCheck (cb : CircuitBreaker) (now : ℚ) : Option CircuitBreaker :=
  match cb.state with
  | CBState.OPEN =>
    match cb.last_failure_time with
    | some t => if cb.timeout < now - t then some { cb with state := CBState.HALF_OPEN } else none
    | none => none
  | _ => some cb

/-- Second locked section of `CircuitBreaker.call` (lines 75-87): state update
after the wrapped operation returned (`ok = true`) or raised (`ok = false`,
with `tFail` the `time.time()` read in the handler). -/
def CircuitBreaker.runUpdate (cb : CircuitBreaker) (ok : Bool) (tFail : ℚ) : CircuitBreaker :=
  if ok then { cb with failure_count := 0, state := CBState.CLOSED }
  else
    let n := cb.failure_count + 1
    { cb with
      failure_count := n
      last_failure_time := some tFail
      state := if cb.failure_threshold ≤ n then CBState.OPEN else cb.state }

inductive CBOutcome where
  | rejected
  | succeeded
  | failed
  deriving Repr, DecidableEq

/-- Number of dispatches of the wrapped operation an outcome represents. -/
def CBOutcome.attempts : CBOutcome → ℕ
  | CBOutcome.rejected => 0
  | _ => 1

/-- Embedding of `CircuitBreaker.call`: guard check, then (if admitted) one dispatch of the
wrapped operation followed by the state update.  `succeeded` carries the
operation's return; `failed` means the operation's exception is re-raised. -/
def CircuitBreaker.call (cb : CircuitBreaker) (now : ℚ) (ok : Bool) (tFail : ℚ) :
    CBOutcome × CircuitBreaker :=
  match cb.guardCheck now with
  | none => (CBOutcome.rejected, cb)
  | some cb' =>
    (if ok then CBOutcome.succeeded else CBOutcome.failed, cb'.runUpdate ok tFail)

/-- A consecutive run of guarded failures at the given (guard-time, fail-time)
pairs. -/
def CircuitBreaker.failSeq (cb : CircuitBreaker) : List (ℚ × ℚ) → CircuitBreaker
  | [] => cb
  | (t, tf) :: ts => ((cb.call t false tf).2).failSeq ts

/-- States of one `CircuitBreaker` instance the Python process can observe:
the freshly constructed breaker, the state after the guard section admitted an
operation (the lock is released while the operation runs, so this intermediate
state is visible to other callers), and the state after a full `call`. -/
inductive CBReachable : CircuitBreaker → Prop where
  | init (th : ℕ) (tmo : ℚ) : CBReachable (CircuitBreaker.init th tmo)
  | guard {cb cb' : CircuitBreaker} (now : ℚ) :
      CBReachable cb → cb.guardCheck now = some cb' → CBReachable cb'
  | run {cb : CircuitBreaker} (ok : Bool) (tFail : ℚ) :
      CBReachable cb → CBReachable (cb.runUpdate ok tFail)

/-! ## BudgetTracker (src/core/llm_client.py, lines 91-135) -/

/-- Embedding of `BudgetTracker.model_costs`: USD per 1K tokens. -/
def model_costs : List (String × ℚ) :=
  [("gemini-pro", 1/4000), ("gpt-4o", 3/100), ("claude-3", 3/200)]

structure BudgetTracker where
  daily_budget : ℚ
  daily_spent : ℚ
  reset_time : ℚ
  deriving Repr, DecidableEq

/-- Embedding of `BudgetTracker.__init__` (reset time is 24h after construction). -/
def BudgetTracker.init (budget : ℚ) (now : ℚ) : BudgetTracker :=
  { daily_budget := budget, daily_spent := 0, reset_time := now + 86400 }

/-- Embedding of `BudgetTracker._reset_if_needed`. -/
def BudgetTracker.resetIfNeeded (bt : BudgetTracker) (now : ℚ) : BudgetTracker :=
  if bt.reset_time < now then { bt with daily_spent := 0, reset_time := now + 86400 }
  else bt

/-- Embedding of `BudgetTracker.check_budget`. -/
def BudgetTracker.check_budget (bt : BudgetTracker) (estimated_cost : ℚ) (now : ℚ) :
    Bool × BudgetTracker :=
  let bt' := bt.resetIfNeeded now
  (decide (bt'.daily_spent + estimated_cost ≤ bt'.daily_budget), bt')

/-- Embedding of `BudgetTracker.record_usage`:
`cost = (tokens / 1000.0) * self.model_costs.get(model, 0.01)`, accumulated
into `daily_spent`.  The Python method returns `None`; the computed cost is
exposed here as the first component so that properties can speak about it. -/
def BudgetTracker.record_usage (bt : BudgetTracker) (model : String) (tokens : ℕ) (now : ℚ) :
    ℚ × BudgetTracker :=
  let bt' := bt.resetIfNeeded now
  let cost := ((tokens : ℚ) / 1000) * ((model_costs.lookup model).getD (1/100))
  (cost, { bt' with daily_spent := bt'.daily_spent + cost })

/-! ## Fallback generators -/

/-- Result dict of `call_llm` / `_deterministic_fallback` / `_call_gemini`
(`src/core/llm_client.py`): keys `text`, `tokens`, `model`, `finish_reason`.
It carries no cost field; provenance is signalled through the `model` tag. -/
structure LLMResult where
  text : String
  tokens : ℕ
  model : String
  finish_reason : String
  deriving Repr, DecidableEq

/-- Keyword routing shared verbatim by `_deterministic_fallback`
(src/core/llm_client.py, lines 281-295) and `VertexAIClient._fallback_response`
(src/core/vertex_ai_client.py, lines 353-367). -/
def fallback_text (prompt : String) : String :=
  let pl := pyLower prompt
  if strIn "bundle" pl then
    "Suggested bundle: CRM+Support with expected uplift 8%"
  else if strIn "price" pl || strIn "pricing" pl then
    "Recommend Hybrid: $99 base + $0.10/workflow + $0.005/1k tokens"
  else if strIn "cost" pl then
    "Cost analysis complete. Median cost per customer: $47.50"
  else if strIn "compliance" pl || strIn "tax" pl then
    "Compliance check passed. VAT rates applied per region."
  else if strIn "recommend" pl then
    "Recommendation: Proceed with tiered pricing strategy"
  else
    "Analysis complete. Proceeding with standard configuration."

/-- Embedding of `_deterministic_fallback` (src/core/llm_client.py, lines 269-302). -/
def deterministic_fallback (prompt : String) : LLMResult :=
  { text := fallback_text prompt
    tokens := pyWordCount (fallback_text prompt)
    model := "deterministic-fallback"
    finish_reason := "complete" }

/-- Result dict of `VertexAIClient.call_model` (src/core/vertex_ai_client.py):
keys `text`, `tokens_input`, `tokens_output`, `model`, `cost_usd`,
`finish_reason`, `source`. -/
structure VResult where
  text : String
  tokens_input : ℕ
  tokens_output : ℕ
  model : String
  cost_usd : ℚ
  finish_reason : String
  source : String
  deriving Repr, DecidableEq

/-- Embedding of `VertexAIClient._fallback_response` (src/core/vertex_ai_client.py,
lines 335-377). -/
def fallback_response (prompt model : String) : VResult :=
  { text := fallback_text prompt
    tokens_input := pyWordCount prompt
    tokens_output := pyWordCount (fallback_text prompt)
    model := model
    cost_usd := 0
    finish_reason := "FALLBACK"
    source := "fallback" }

/-! ## Call orchestrator `call_llm` (src/core/llm_client.py, lines 144-216) -/

structure GatewayState where
  rl : RateLimiter
  cb : CircuitBreaker
  bt : BudgetTracker
  deriving Repr, DecidableEq

/-- Per-attempt environment for one iteration of the retry loop: the
`time.time()` reads (at the rate-limiter acquire, at the breaker guard, in the
breaker's failure handler, at usage recording) and the provider call's fate. -/
structure AttemptEnv where
  tAcquire : ℚ
  tGuard : ℚ
  providerOk : Bool
  providerRes : LLMResult
  tFail : ℚ
  tRecord : ℚ
  deriving Repr, DecidableEq

/-- The `estimated_cost` of `call_llm` (lines 175-176):
`(max_tokens + len(prompt.split()) * 1.3) / 1000 * 0.00025`. -/
def estimatedCost (prompt : String) (max_tokens : ℕ) : ℚ :=
  (((max_tokens : ℚ) + (pyWordCount prompt : ℚ) * (13/10)) / 1000) * (1/4000)

/-- The `for attempt in range(max_retries)` loop of `call_llm`
(lines 183-213): one list element per remaining attempt.  A rate-limit denial
sleeps and `continue`s (consuming the attempt); a breaker rejection or a
provider error is caught, backed off, and retried; a success records usage
under model `"gemini-pro"` and returns.  When attempts run out, control falls
through to `_deterministic_fallback` (line 216).  The third component counts
dispatches of the provider call. -/
def callLLMLoop (prompt : String) : GatewayState → List AttemptEnv → LLMResult × GatewayState × ℕ
  | gs, [] => (deterministic_fallback prompt, gs, 0)
  | gs, env :: rest =>
    let gs1 : GatewayState := { gs with rl := (gs.rl.acquire env.tAcquire).2 }
    if (gs.rl.acquire env.tAcquire).1 then
      match gs1.cb.guardCheck env.tGuard with
      | none => callLLMLoop prompt gs1 rest
      | some cb1 =>
        if env.providerOk then
          let cb2 := cb1.runUpdate true env.tFail
          let bt' := (gs1.bt.record_usage "gemini-pro" env.providerRes.tokens env.tRecord).2
          (env.providerRes, { gs1 with cb := cb2, bt := bt' }, 1)
        else
          let cb2 := cb1.runUpdate false env.tFail
          let out := callLLMLoop prompt { gs1 with cb := cb2 } rest
          (out.1, out.2.1, out.2.2 + 1)
    else
      callLLMLoop prompt gs1 rest

/-- Embedding of `call_llm` (src/core/llm_client.py, lines 144-216).  `useGeminiEnv` is
`os.getenv("USE_GEMINI") == "1"`; `tCheck` is the wall clock at the budget
check.  Returns the result dict, the gateway state after the call, and the
number of provider dispatches. -/
def call_llm (useGeminiEnv use_gemini : Bool) (prompt : String) (max_tokens : ℕ)
    (tCheck : ℚ) (gs : GatewayState) (attempts : List AttemptEnv) :
    LLMResult × GatewayState × ℕ :=
  if useGeminiEnv && use_gemini then
    let gs1 : GatewayState :=
      { gs with bt := (gs.bt.check_budget (estimatedCost prompt max_tokens) tCheck).2 }
    if (gs.bt.check_budget (estimatedCost prompt max_tokens) tCheck).1 then
      callLLMLoop prompt gs1 attempts
    else (deterministic_fallback prompt, gs1, 0)
  else (deterministic_fallback prompt, gs, 0)

/-! ## VertexAIClient (src/core/vertex_ai_client.py) -/

/-- Embedding of `VertexAIClient.model_costs`: USD per 1M tokens, (input, output). -/
def vertex_model_costs : List (String × (ℚ × ℚ)) :=
  [("gemini-2.0-flash", (3/40, 3/10)),
   ("gemini-1.5-pro", (5/4, 5)),
   ("gemini-1.5-flash", (3/40, 3/10))]

structure VertexClient where
  vertex_ai_initialized : Bool
  force_fallback : Bool
  circuit_open : Bool
  failure_count : ℕ
  last_failure_time : Option ℚ
  rate_limit_tokens : ℚ
  max_tokens : ℚ
  tokens_per_minute : ℚ
  last_refill : ℚ
  daily_budget_usd : ℚ
  total_costs : ℚ
  daily_costs : List (String × List (String × ℚ))
  deriving Repr, DecidableEq

/-- Python dict assignment `d[k] = v` on an association list. -/
def setAssoc {α : Type} (l : List (String × α)) (k : String) (v : α) : List (String × α) :=
  match l with
  | [] => [(k, v)]
  | (k', v') :: rest => if k' = k then (k, v) :: rest else (k', v') :: setAssoc rest k v

/-- Embedding of `VertexAIClient._track_cost` (lines 265-311): unknown model logs a warning
and returns 0.0 without touching the ledgers; otherwise accumulate into
`daily_costs[today][model]` and `total_costs` and return the cost. -/
def VertexClient.track_cost (c : VertexClient) (model : String)
    (input_tokens output_tokens : ℕ) (today : String) : ℚ × VertexClient :=
  match vertex_model_costs.lookup model with
  | none => (0, c)
  | some prices =>
    let input_cost := ((input_tokens : ℚ) / 1000000) * prices.1
    let output_cost := ((output_tokens : ℚ) / 1000000) * prices.2
    let total_cost := input_cost + output_cost
    let dayMap := (c.daily_costs.lookup today).getD []
    let prev := (dayMap.lookup model).getD 0
    let dc' := setAssoc c.daily_costs today (setAssoc dayMap model (prev + total_cost))
    (total_cost, { c with daily_costs := dc', total_costs := c.total_costs + total_cost })

/-- What one `_rate_limit_acquire` call did: took a token at once, or slept
`seconds` before returning. -/
inductive VAcquire where
  | taken
  | waited (seconds : ℚ)
  deriving Repr, DecidableEq

/-- Embedding of `VertexAIClient._rate_limit_acquire` (lines 313-333): refill, then either
decrement, or wait `(1 - tokens) / (tokens_per_minute / 60)` seconds and zero
the bucket.  It never reports a denial to its caller. -/
def VertexClient.rate_limit_acquire (c : VertexClient) (now : ℚ) : VAcquire × VertexClient :=
  let elapsed := now - c.last_refill
  let tokens := rmin c.max_tokens (c.rate_limit_tokens + elapsed * (c.tokens_per_minute / 60))
  let c1 : VertexClient := { c with rate_limit_tokens := tokens, last_refill := now }
  if 1 ≤ tokens then (VAcquire.taken, { c1 with rate_limit_tokens := tokens - 1 })
  else
    let wait_time := (1 - tokens) / (c.tokens_per_minute / 60)
    (VAcquire.waited wait_time, { c1 with rate_limit_tokens := 0 })

/-- Per-attempt environment of `call_model`'s retry loop: the provider call's
fate and (on success) its response fields, and the `time.time()` read in the
failure handler. -/
structure VAttemptEnv where
  providerOk : Bool
  text : String
  tokens_input : ℕ
  tokens_output : ℕ
  finish_reason : String
  tFail : ℚ
  deriving Repr, DecidableEq

/-- The `for attempt in range(max_retries)` loop of `call_model`
(lines 151-199), one list element per remaining attempt.  Success resets the
breaker, tracks cost and returns a `"vertex_ai"`-tagged result; the 5th
cumulative failure opens the breaker and returns the fallback; a failure on
the last attempt returns the fallback; otherwise back off and retry.  The
third component counts provider dispatches. -/
def VertexClient.call_model_loop (prompt model today : String) :
    VertexClient → List VAttemptEnv → VResult × VertexClient × ℕ
  | c, [] => (fallback_response prompt model, c, 0)
  | c, env :: rest =>
    if env.providerOk then
      let c1 : VertexClient := { c with failure_count := 0, circuit_open := false }
      let tracked := c1.track_cost model env.tokens_input env.tokens_output today
      ({ text := env.text, tokens_input := env.tokens_input,
         tokens_output := env.tokens_output, model := model, cost_usd := tracked.1,
         finish_reason := env.finish_reason, source := "vertex_ai" }, tracked.2, 1)
    else
      let c1 : VertexClient :=
        { c with failure_count := c.failure_count + 1, last_failure_time := some env.tFail }
      if 5 ≤ c1.failure_count then
        (fallback_response prompt model, { c1 with circuit_open := true }, 1)
      else
        match rest with
        | [] => (fallback_response prompt model, c1, 1)
        | _ :: _ =>
          let out := VertexClient.call_model_loop prompt model today c1 rest
          (out.1, out.2.1, out.2.2 + 1)

/-- Embedding of `VertexAIClient.call_model` (lines 112-199).  `tAcq` is the wall clock at
the rate-limit acquisition.  Returns the result dict, the client state after
the call, and the number of provider dispatches. -/
def VertexClient.call_model (c : VertexClient) (prompt model : String) (tAcq : ℚ)
    (today : String) (envs : List VAttemptEnv) : VResult × VertexClient × ℕ :=
  if !c.vertex_ai_initialized || c.circuit_open || c.force_fallback then
    (fallback_response prompt model, c, 0)
  else
    VertexClient.call_model_loop prompt model today (c.rate_limit_acquire tAcq).2 envs

/-- Arguments of one `call_model` invocation, for reasoning about the life of
a client instance. -/
structure VCallArgs where
  prompt : String
  model : String
  tAcq : ℚ
  today : String
  envs : List VAttemptEnv
  deriving Repr, DecidableEq

/-- A whole sequence of `call_model` invocations on one client instance,
collecting each call's (result, provider-dispatch count). -/
def VertexClient.call_seq (c : VertexClient) : List VCallArgs → List (VResult × ℕ) × VertexClient
  | [] => ([], c)
  | a :: rest =>
    let out := c.call_model a.prompt a.model a.tAcq a.today a.envs
    let tail := (out.2.1).call_seq rest
    ((out.1, out.2.2) :: tail.1, tail.2)

example : (deterministic_fallback "").text = "Analysis complete. Proceeding with standard configuration." := by decide
example : (fallback_response "best price?" "gemini-2.0-flash").text = "Recommend Hybrid: $99 base + $0.10/workflow + $0.005/1k tokens" := by decide
example : ((RateLimiter.init 60 0).acquire 0).1 = true := by norm_num [RateLimiter.acquire, RateLimiter.refill, RateLimiter.init, rmin]

/-! ## Helper lemmas -/

theorem rmin_le_left (a b : ℚ) : rmin a b ≤ a := by
  unfold rmin; split
  · exact le_rfl
  · next h => exact le_of_not_le h

theorem le_rmin {a b c : ℚ} (h1 : c ≤ a) (h2 : c ≤ b) : c ≤ rmin a b := by
  unfold rmin; split <;> assumption

/-- One `acquire` keeps the token count inside `[0, max_tokens]` and leaves
the configuration fields alone, provided the clock did not run backwards. -/
theorem RateLimiter.acquire_preserves (rl : RateLimiter) (now : ℚ)
    (hcpm : 0 ≤ rl.calls_per_minute) (hlast : rl.last_refill ≤ now)
    (h0 : 0 ≤ rl.tokens) (hcap : rl.tokens ≤ rl.max_tokens) :
    0 ≤ ((rl.acquire now).2).tokens ∧
    ((rl.acquire now).2).tokens ≤ ((rl.acquire now).2).max_tokens ∧
    ((rl.acquire now).2).max_tokens = rl.max_tokens ∧
    ((rl.acquire now).2).calls_per_minute = rl.calls_per_minute ∧
    ((rl.acquire now).2).last_refill = now := by
  have hadd : 0 ≤ (now - rl.last_refill) * (rl.calls_per_minute / 60) := by
    have h1 : 0 ≤ now - rl.last_refill := by linarith
    have h2 : 0 ≤ rl.calls_per_minute / 60 := by positivity
    exact mul_nonneg h1 h2
  have hlo : 0 ≤ rmin rl.max_tokens (rl.tokens + (now - rl.last_refill) * (rl.calls_per_minute / 60)) :=
    le_rmin (le_trans h0 hcap) (by linarith)
  have hhi : rmin rl.max_tokens (rl.tokens + (now - rl.last_refill) * (rl.calls_per_minute / 60)) ≤ rl.max_tokens :=
    rmin_le_left _ _
  unfold RateLimiter.acquire RateLimiter.refill
  dsimp only
  split
  · next h => exact ⟨by linarith, by dsimp only; linarith, rfl, rfl, rfl⟩
  · exact ⟨hlo, hhi, rfl, rfl, rfl⟩

/-- C7: for every sequence of `acquire()` calls at non-decreasing wall-clock
times, the available-token count never exceeds the configured capacity and
never goes negative. -/
theorem token_bucket_bound (rl : RateLimiter) (ts : List ℚ)
    (hcpm : 0 ≤ rl.calls_per_minute)
    (h0 : 0 ≤ rl.tokens) (hcap : rl.tokens ≤ rl.max_tokens)
    (hts : List.Chain (· ≤ ·) rl.last_refill ts) :
    0 ≤ (rl.acquireSeq ts).tokens ∧
    (rl.acquireSeq ts).tokens ≤ (rl.acquireSeq ts).max_tokens := by
  induction ts generalizing rl with
  | nil => exact ⟨h0, hcap⟩
  | cons t ts ih =>
    rcases hts with _ | ⟨hle, hchain⟩
    obtain ⟨p0, p1, pmax, pcpm, plast⟩ := rl.acquire_preserves t hcpm hle h0 hcap
    have := ih ((rl.acquire t).2) (by rw [pcpm]; exact hcpm) p0 (by rw [pmax] at p1; rw [pmax]; exact p1)
      (by rw [plast]; exact hchain)
    simpa [RateLimiter.acquireSeq] using this

/-- Witness for C7 at a concrete limiter and time sequence. -/
theorem token_bucket_bound_witness :
    0 ≤ ((RateLimiter.init 60 0).acquireSeq [1, 2, 2]).tokens ∧
    ((RateLimiter.init 60 0).acquireSeq [1, 2, 2]).tokens ≤
      ((RateLimiter.init 60 0).acquireSeq [1, 2, 2]).max_tokens :=
  token_bucket_bound (RateLimiter.init 60 0) [1, 2, 2]
    (by norm_num [RateLimiter.init]) (by norm_num [RateLimiter.init])
    (by norm_num [RateLimiter.init])
    (List.Chain.cons (by norm_num [RateLimiter.init])
      (List.Chain.cons (by norm_num) (List.Chain.cons (by norm_num) List.Chain.nil)))

/-- C8 (counterexample): the claim says an acquisition that finds fewer than
one token "returns denied immediately, without blocking or waiting", but
`VertexAIClient._rate_limit_acquire` waits instead: on a client whose bucket
holds 0 tokens (capacity 100, 100 tokens/minute, no time elapsed) it sleeps
`(1 - 0) / (100 / 60) = 3/5` seconds and never reports a denial. -/
theorem rate_limit_acquire_waits :
    ((VertexClient.mk true false false 0 none 0 100 100 0 100 0 []).rate_limit_acquire 0).1 =
      VAcquire.waited (3/5) ∧
    ((VertexClient.mk true false false 0 none 0 100 100 0 100 0 []).rate_limit_acquire 0).2.rate_limit_tokens = 0 := by
  constructor <;> norm_num [VertexClient.rate_limit_acquire, rmin]

/-- C8 (amended): `RateLimiter.acquire` refills to
`min(capacity, tokens + elapsed * (capacity / 60))` and then either decrements
by exactly 1 and grants, or denies without blocking — it coincides with the
spec's contract whenever the refill rate equals the capacity, which is how
every instance is constructed.  `VertexAIClient._rate_limit_acquire` performs
the same refill but, below one token, waits `(1 - tokens) / (rate / 60)`
seconds and zeroes the bucket instead of denying. -/
theorem acquire_contract :
    (∀ (rl : RateLimiter) (now : ℚ), rl.calls_per_minute = rl.max_tokens →
      rl.acquire now = rateLimiterAcquireSpec rl now) ∧
    (∀ (cpm now : ℚ), (RateLimiter.init cpm now).calls_per_minute = (RateLimiter.init cpm now).max_tokens) ∧
    (∀ (c : VertexClient) (now : ℚ),
      (1 ≤ rmin c.max_tokens (c.rate_limit_tokens + (now - c.last_refill) * (c.tokens_per_minute / 60)) →
        (c.rate_limit_acquire now).1 = VAcquire.taken ∧
        (c.rate_limit_acquire now).2.rate_limit_tokens =
          rmin c.max_tokens (c.rate_limit_tokens + (now - c.last_refill) * (c.tokens_per_minute / 60)) - 1) ∧
      (¬ 1 ≤ rmin c.max_tokens (c.rate_limit_tokens + (now - c.last_refill) * (c.tokens_per_minute / 60)) →
        (c.rate_limit_acquire now).1 =
          VAcquire.waited ((1 - rmin c.max_tokens (c.rate_limit_tokens + (now - c.last_refill) * (c.tokens_per_minute / 60))) / (c.tokens_per_minute / 60)) ∧
        (c.rate_limit_acquire now).2.rate_limit_tokens = 0)) := by
  refine ⟨?_, fun cpm now => rfl, ?_⟩
  · intro rl now hcap
    unfold RateLimiter.acquire RateLimiter.refill rateLimiterAcquireSpec
    rw [hcap]
  · intro c now
    constructor
    · intro h
      unfold VertexClient.rate_limit_acquire
      dsimp only
      rw [if_pos h]
      exact ⟨rfl, rfl⟩
    · intro h
      unfold VertexClient.rate_limit_acquire
      dsimp only
      rw [if_neg h]
      exact ⟨rfl, rfl⟩

/-- Witness for C8's amended contract at concrete inputs. -/
theorem acquire_contract_witness :
    (RateLimiter.init 60 0).acquire 5 = rateLimiterAcquireSpec (RateLimiter.init 60 0) 5 ∧
    ((VertexClient.mk true false false 0 none 100 100 100 0 100 0 []).rate_limit_acquire 0).1 = VAcquire.taken :=
  ⟨acquire_contract.1 (RateLimiter.init 60 0) 5 rfl,
   ((acquire_contract.2.2 (VertexClient.mk true false false 0 none 100 100 100 0 100 0 []) 0).1
     (by norm_num [rmin])).1⟩

/-- C2: the fallback generator is total on every prompt string (including the
empty string): `_fallback_response` always carries provenance `"fallback"`
and cost exactly `0.0`, and `_deterministic_fallback` always carries its
fallback provenance tag `"deterministic-fallback"`; neither can fail. -/
theorem fallback_totality :
    ∀ prompt model : String,
      (fallback_response prompt model).source = "fallback" ∧
      (fallback_response prompt model).cost_usd = 0 ∧
      (deterministic_fallback prompt).model = "deterministic-fallback" ∧
      (deterministic_fallback prompt).finish_reason = "complete" :=
  fun _ _ => ⟨rfl, rfl, rfl, rfl⟩

/-- Below the threshold, a run of guarded failures in the CLOSED state stays
CLOSED and just accumulates the consecutive-failure count. -/
theorem CircuitBreaker.failSeq_closed (cb : CircuitBreaker) (ts : List (ℚ × ℚ))
    (hst : cb.state = CBState.CLOSED)
    (hlt : cb.failure_count + ts.length < cb.failure_threshold) :
    (cb.failSeq ts).state = CBState.CLOSED ∧
    (cb.failSeq ts).failure_count = cb.failure_count + ts.length ∧
    (cb.failSeq ts).failure_threshold = cb.failure_threshold := by
  induction ts generalizing cb with
  | nil => exact ⟨hst, rfl, rfl⟩
  | cons p ts ih =>
    obtain ⟨t, tf⟩ := p
    have hn : ¬ cb.failure_threshold ≤ cb.failure_count + 1 := by simp at hlt; omega
    have hstep : (cb.call t false tf).2 =
        { cb with failure_count := cb.failure_count + 1, last_failure_time := some tf } := by
      simp [CircuitBreaker.call, CircuitBreaker.guardCheck, hst, CircuitBreaker.runUpdate, hn]
    have hrec := ih { cb with failure_count := cb.failure_count + 1, last_failure_time := some tf }
      (by simpa using hst) (by simp at hlt ⊢; omega)
    simp only [CircuitBreaker.failSeq, hstep]
    refine ⟨hrec.1, ?_, ?_⟩
    · rw [hrec.2.1]; simp; omega
    · rw [hrec.2.2]

theorem CircuitBreaker.failSeq_append (cb : CircuitBreaker) (l1 l2 : List (ℚ × ℚ)) :
    cb.failSeq (l1 ++ l2) = (cb.failSeq l1).failSeq l2 := by
  induction l1 generalizing cb with
  | nil => rfl
  | cons p l1 ih => obtain ⟨t, tf⟩ := p; simp [CircuitBreaker.failSeq, ih]

/-- C4: starting from the freshly constructed (CLOSED) breaker, after exactly
`failure_threshold` consecutive guarded failures the state is OPEN; after any
shorter run the state is still CLOSED with the consecutive count equal to the
number of failures, and a single success at that point resets the count to
zero with the state remaining CLOSED. -/
theorem circuit_monotonicity (th : ℕ) (tmo : ℚ) (ts : List (ℚ × ℚ)) (hth : 1 ≤ th) :
    (ts.length = th → ((CircuitBreaker.init th tmo).failSeq ts).state = CBState.OPEN) ∧
    (ts.length < th →
      ((CircuitBreaker.init th tmo).failSeq ts).state = CBState.CLOSED ∧
      ((CircuitBreaker.init th tmo).failSeq ts).failure_count = ts.length ∧
      ∀ (t tf : ℚ),
        ((((CircuitBreaker.init th tmo).failSeq ts).call t true tf).2).state = CBState.CLOSED ∧
        ((((CircuitBreaker.init th tmo).failSeq ts).call t true tf).2).failure_count = 0) := by
  constructor
  · intro hlen
    rcases List.eq_nil_or_concat ts with rfl | ⟨L, p, rfl⟩
    · simp at hlen; omega
    · obtain ⟨t, tf⟩ := p
      rw [List.concat_eq_append] at hlen
      rw [List.concat_eq_append]
      have hL : (CircuitBreaker.init th tmo).failure_count + L.length < th := by
        simp [CircuitBreaker.init]; simp at hlen; omega
      obtain ⟨s1, s2, s3⟩ := CircuitBreaker.failSeq_closed (CircuitBreaker.init th tmo) L rfl
        (by simpa [CircuitBreaker.init] using hL)
      rw [CircuitBreaker.failSeq_append]
      have hguard : ((CircuitBreaker.init th tmo).failSeq L).guardCheck t =
          some ((CircuitBreaker.init th tmo).failSeq L) := by
        simp [CircuitBreaker.guardCheck, s1]
      have hle : ((CircuitBreaker.init th tmo).failSeq L).failure_threshold ≤
          ((CircuitBreaker.init th tmo).failSeq L).failure_count + 1 := by
        rw [s3, s2]; simp [CircuitBreaker.init]; simp at hlen; omega
      simp [CircuitBreaker.failSeq, CircuitBreaker.call, hguard, CircuitBreaker.runUpdate, hle]
  · intro hlen
    obtain ⟨s1, s2, s3⟩ := CircuitBreaker.failSeq_closed (CircuitBreaker.init th tmo) ts rfl
      (by simp [CircuitBreaker.init]; omega)
    refine ⟨s1, by simpa [CircuitBreaker.init] using s2, ?_⟩
    intro t tf
    have hguard : ((CircuitBreaker.init th tmo).failSeq ts).guardCheck t =
        some ((CircuitBreaker.init th tmo).failSeq ts) := by
      simp [CircuitBreaker.guardCheck, s1]
    simp [CircuitBreaker.call, hguard, CircuitBreaker.runUpdate]

/-- Witness for C4 with threshold 2: two failures open the breaker; one
failure leaves it CLOSED at count 1, and a success then resets the count. -/
theorem circuit_monotonicity_witness :
    ((CircuitBreaker.init 2 60).failSeq [(0, 0), (1, 1)]).state = CBState.OPEN ∧
    ((CircuitBreaker.init 2 60).failSeq [(0, 0)]).state = CBState.CLOSED ∧
    ((CircuitBreaker.init 2 60).failSeq [(0, 0)]).failure_count = 1 ∧
    ((((CircuitBreaker.init 2 60).failSeq [(0, 0)]).call 3 true 3).2).failure_count = 0 :=
  ⟨(circuit_monotonicity 2 60 [(0, 0), (1, 1)] (by norm_num)).1 rfl,
   ((circuit_monotonicity 2 60 [(0, 0)] (by norm_num)).2 (by norm_num)).1,
   ((circuit_monotonicity 2 60 [(0, 0)] (by norm_num)).2 (by norm_num)).2.1,
   (((circuit_monotonicity 2 60 [(0, 0)] (by norm_num)).2 (by norm_num)).2.2 3 3).2⟩

/-- C5: while OPEN with the cool-down not yet elapsed since the recorded
failure timestamp, the guard rejects ("Circuit breaker is OPEN") without
dispatching the wrapped operation and without changing any state; once the
cool-down has elapsed, the guard moves the state to HALF_OPEN and exactly one
operation is dispatched. -/
theorem breaker_open_guard (cb : CircuitBreaker) (now t tf : ℚ) (ok : Bool)
    (hst : cb.state = CBState.OPEN) (hlf : cb.last_failure_time = some t) :
    (now - t ≤ cb.timeout → cb.call now ok tf = (CBOutcome.rejected, cb)) ∧
    (cb.timeout < now - t →
      cb.guardCheck now = some { cb with state := CBState.HALF_OPEN } ∧
      ((cb.call now ok tf).1).attempts = 1) := by
  constructor
  · intro h
    have hnot : ¬ cb.timeout < now - t := not_lt.mpr h
    simp [CircuitBreaker.call, CircuitBreaker.guardCheck, hst, hlf, hnot]
  · intro h
    have hg : cb.guardCheck now = some { cb with state := CBState.HALF_OPEN } := by
      simp [CircuitBreaker.guardCheck, hst, hlf, h]
    refine ⟨hg, ?_⟩
    cases ok <;> simp [CircuitBreaker.call, hg, CBOutcome.attempts]

/-- Witness for C5: breaker opened at time 0 with 60s cool-down; at time 30
the guard rejects untouched, at time 61 it admits exactly one trial from the
HALF_OPEN state. -/
theorem breaker_open_guard_witness :
    (CircuitBreaker.mk 5 60 5 (some 0) CBState.OPEN).call 30 true 30 =
      (CBOutcome.rejected, CircuitBreaker.mk 5 60 5 (some 0) CBState.OPEN) ∧
    (CircuitBreaker.mk 5 60 5 (some 0) CBState.OPEN).guardCheck 61 =
      some (CircuitBreaker.mk 5 60 5 (some 0) CBState.HALF_OPEN) ∧
    (((CircuitBreaker.mk 5 60 5 (some 0) CBState.OPEN).call 61 true 61).1).attempts = 1 := by
  have h1 := (breaker_open_guard (CircuitBreaker.mk 5 60 5 (some 0) CBState.OPEN)
    30 0 30 true rfl rfl).1 (by norm_num)
  have h2 := (breaker_open_guard (CircuitBreaker.mk 5 60 5 (some 0) CBState.OPEN)
    61 0 61 true rfl rfl).2 (by norm_num)
  exact ⟨h1, h2.1, h2.2⟩

/-- Reachability invariant of the breaker: away from CLOSED, the
consecutive-failure count has reached the threshold (the count is only zeroed
together with a move back to CLOSED). -/
theorem CBReachable.threshold_le_count {cb : CircuitBreaker} (h : CBReachable cb) :
    cb.state ≠ CBState.CLOSED → cb.failure_threshold ≤ cb.failure_count := by
  induction h with
  | init th tmo => intro hc; exact absurd rfl hc
  | guard now hr heq ih =>
    intro hc'
    rename_i cb cb'
    unfold CircuitBreaker.guardCheck at heq
    cases hstate : cb.state with
    | CLOSED =>
      rw [hstate] at heq
      simp at heq
      rw [← heq] at hc'
      exact absurd hstate hc'
    | OPEN =>
      rw [hstate] at heq
      cases hlf : cb.last_failure_time with
      | none => rw [hlf] at heq; simp at heq
      | some t =>
        rw [hlf] at heq
        dsimp only at heq
        by_cases hcd : cb.timeout < now - t
        · rw [if_pos hcd] at heq
          simp at heq
          rw [← heq]
          simpa using ih (by simp [hstate])
        · rw [if_neg hcd] at heq; simp at heq
    | HALF_OPEN =>
      rw [hstate] at heq
      simp at heq
      rw [← heq]
      exact ih (by simp [hstate])
  | run ok tf hr ih =>
    intro hc'
    rename_i cb
    cases ok with
    | true => simp [CircuitBreaker.runUpdate] at hc'
    | false =>
      simp only [CircuitBreaker.runUpdate, Bool.false_eq_true, if_false] at hc' ⊢
      by_cases hth : cb.failure_threshold ≤ cb.failure_count + 1
      · simpa using hth
      · simp only [if_neg hth] at hc'
        simp at hc' ⊢
        have := ih (by simpa using hc')
        omega

/-- C6: in every reachable HALF_OPEN state, a successful trial moves the
breaker to CLOSED with the failure count reset to zero, and a failed trial
moves it back to OPEN with the cool-down clock reset to the failure's time. -/
theorem half_open_trial (cb : CircuitBreaker) (hr : CBReachable cb)
    (hst : cb.state = CBState.HALF_OPEN) :
    (∀ tf : ℚ, (cb.runUpdate true tf).state = CBState.CLOSED ∧
      (cb.runUpdate true tf).failure_count = 0) ∧
    (∀ tf : ℚ, (cb.runUpdate false tf).state = CBState.OPEN ∧
      (cb.runUpdate false tf).last_failure_time = some tf) := by
  have hinv : cb.failure_threshold ≤ cb.failure_count :=
    hr.threshold_le_count (by simp [hst])
  constructor
  · intro tf; exact ⟨rfl, rfl⟩
  · intro tf
    have hle : cb.failure_threshold ≤ cb.failure_count + 1 := by omega
    simp [CircuitBreaker.runUpdate, hle]

/-- Witness for C6 at a concretely reachable HALF_OPEN breaker (threshold 1:
one failure at time 0 opens it, the guard at time 100 admits the trial). -/
theorem half_open_trial_witness :
    ((CircuitBreaker.mk 1 60 1 (some 0) CBState.HALF_OPEN).runUpdate true 7).state = CBState.CLOSED ∧
    ((CircuitBreaker.mk 1 60 1 (some 0) CBState.HALF_OPEN).runUpdate true 7).failure_count = 0 ∧
    ((CircuitBreaker.mk 1 60 1 (some 0) CBState.HALF_OPEN).runUpdate false 7).state = CBState.OPEN ∧
    ((CircuitBreaker.mk 1 60 1 (some 0) CBState.HALF_OPEN).runUpdate false 7).last_failure_time = some 7 := by
  have h2 : CBReachable (CircuitBreaker.mk 1 60 1 (some 0) CBState.OPEN) :=
    CBReachable.run false 0 (CBReachable.init 1 60)
  have hr : CBReachable (CircuitBreaker.mk 1 60 1 (some 0) CBState.HALF_OPEN) :=
    CBReachable.guard 100 h2 (by norm_num [CircuitBreaker.guardCheck])
  have h := half_open_trial (CircuitBreaker.mk 1 60 1 (some 0) CBState.HALF_OPEN) hr rfl
  exact ⟨(h.1 7).1, (h.1 7).2, (h.2 7).1, (h.2 7).2⟩

/-! ## Orchestrator theorems -/

/-- Every run of `call_llm`'s retry loop yields either the deterministic
fallback or the provider response of some successful attempt. -/
theorem callLLMLoop_cases (prompt : String) (gs : GatewayState) (attempts : List AttemptEnv) :
    (callLLMLoop prompt gs attempts).1 = deterministic_fallback prompt ∨
    ∃ env ∈ attempts, env.providerOk ∧ (callLLMLoop prompt gs attempts).1 = env.providerRes := by
  induction attempts generalizing gs with
  | nil => exact Or.inl rfl
  | cons env rest ih =>
    simp only [callLLMLoop]
    split
    · split
      · rcases ih _ with h | ⟨e, he, hok, hres⟩
        · exact Or.inl h
        · exact Or.inr ⟨e, List.mem_cons_of_mem _ he, hok, hres⟩
      · split
        · next hok =>
          exact Or.inr ⟨env, List.mem_cons_self env rest, hok, rfl⟩
        · rcases ih _ with h | ⟨e, he, hok, hres⟩
          · exact Or.inl h
          · exact Or.inr ⟨e, List.mem_cons_of_mem _ he, hok, hres⟩
    · rcases ih _ with h | ⟨e, he, hok, hres⟩
      · exact Or.inl h
      · exact Or.inr ⟨e, List.mem_cons_of_mem _ he, hok, hres⟩

/-- Every run of `call_model`'s retry loop yields either the fallback response
or a `"vertex_ai"`-tagged result produced by some successful attempt. -/
theorem call_model_loop_cases (prompt model today : String) (c : VertexClient)
    (envs : List VAttemptEnv) :
    (VertexClient.call_model_loop prompt model today c envs).1 = fallback_response prompt model ∨
    ((VertexClient.call_model_loop prompt model today c envs).1.source = "vertex_ai" ∧
      ∃ env ∈ envs, env.providerOk) := by
  induction envs generalizing c with
  | nil => exact Or.inl rfl
  | cons env rest ih =>
    simp only [VertexClient.call_model_loop]
    split
    · next hok =>
      exact Or.inr ⟨rfl, env, List.mem_cons_self env rest, hok⟩
    · split
      · exact Or.inl rfl
      · split
        · exact Or.inl rfl
        · rcases ih _ with h | ⟨hs, e, he, hok⟩
          · exact Or.inl h
          · exact Or.inr ⟨hs, e, List.mem_cons_of_mem _ he, hok⟩

/-- While the `circuit_open` flag is set, `call_model` short-circuits to the
fallback before touching the rate limiter, the retry loop or the provider,
and leaves the client state (the flag included) untouched. -/
theorem vertex_open_short (c : VertexClient) (h : c.circuit_open = true)
    (prompt model : String) (tAcq : ℚ) (today : String) (envs : List VAttemptEnv) :
    c.call_model prompt model tAcq today envs = (fallback_response prompt model, c, 0) := by
  unfold VertexClient.call_model
  simp [h]

/-- C1: the orchestrators are total and signal degradation only through the
result's provenance tag, never as an error: `call_llm` always returns either
a successful attempt's provider response or the deterministic fallback
(tagged `"deterministic-fallback"`), and `VertexAIClient.call_model` always
returns either the fallback response (tagged `"fallback"`) or a
`"vertex_ai"`-tagged response from a successful attempt. -/
theorem orchestrator_total :
    (∀ (useGeminiEnv use_gemini : Bool) (prompt : String) (max_tokens : ℕ) (tCheck : ℚ)
       (gs : GatewayState) (attempts : List AttemptEnv),
      (call_llm useGeminiEnv use_gemini prompt max_tokens tCheck gs attempts).1 =
        deterministic_fallback prompt ∨
      ∃ env ∈ attempts, env.providerOk ∧
        (call_llm useGeminiEnv use_gemini prompt max_tokens tCheck gs attempts).1 =
          env.providerRes) ∧
    (∀ (c : VertexClient) (prompt model : String) (tAcq : ℚ) (today : String)
       (envs : List VAttemptEnv),
      (c.call_model prompt model tAcq today envs).1 = fallback_response prompt model ∨
      ((c.call_model prompt model tAcq today envs).1.source = "vertex_ai" ∧
        ∃ env ∈ envs, env.providerOk)) := by
  constructor
  · intro ug uv prompt mt tCheck gs attempts
    unfold call_llm
    split
    · split
      · exact callLLMLoop_cases prompt _ attempts
      · exact Or.inl rfl
    · exact Or.inl rfl
  · intro c prompt model tAcq today envs
    unfold VertexClient.call_model
    split
    · exact Or.inl rfl
    · exact call_model_loop_cases prompt model today _ envs

/-- While the breaker stays OPEN with the cool-down not elapsed at every
attempt, the retry loop never dispatches the provider, never changes the
breaker, and falls through to the deterministic fallback. -/
theorem callLLMLoop_open (prompt : String) (gs : GatewayState) (attempts : List AttemptEnv)
    (t : ℚ) (hst : gs.cb.state = CBState.OPEN) (hlf : gs.cb.last_failure_time = some t)
    (hts : ∀ env ∈ attempts, env.tGuard - t ≤ gs.cb.timeout) :
    (callLLMLoop prompt gs attempts).1 = deterministic_fallback prompt ∧
    (callLLMLoop prompt gs attempts).2.2 = 0 ∧
    (callLLMLoop prompt gs attempts).2.1.cb = gs.cb := by
  induction attempts generalizing gs with
  | nil => exact ⟨rfl, rfl, rfl⟩
  | cons env rest ih =>
    have hg : gs.cb.guardCheck env.tGuard = none := by
      have hcd : ¬ gs.cb.timeout < env.tGuard - t :=
        not_lt.mpr (hts env (List.mem_cons_self env rest))
      simp [CircuitBreaker.guardCheck, hst, hlf, hcd]
    have hrec := ih { gs with rl := (gs.rl.acquire env.tAcquire).2 } hst hlf
      (fun e he => hts e (List.mem_cons_of_mem _ he))
    simp only [callLLMLoop]
    split
    · simp only [hg]
      exact hrec
    · exact hrec

/-- C3: a `BudgetExceeded` or `CircuitOpen` condition routes straight to the
fallback generator without any provider attempt.  (a) when the budget check
denies the estimated cost, `call_llm` returns the deterministic fallback at
once with zero provider dispatches; (b) while the breaker is OPEN and the
cool-down has not elapsed at any attempt, `call_llm` returns the
deterministic fallback with zero provider dispatches; (c) with the
`circuit_open` flag set, `call_model` returns the fallback response directly,
untouched state, zero dispatches. -/
theorem no_retry_against_provider :
    (∀ (gs : GatewayState) (prompt : String) (max_tokens : ℕ) (tCheck : ℚ)
       (attempts : List AttemptEnv),
      (gs.bt.check_budget (estimatedCost prompt max_tokens) tCheck).1 = false →
      call_llm true true prompt max_tokens tCheck gs attempts =
        (deterministic_fallback prompt,
         { gs with bt := (gs.bt.check_budget (estimatedCost prompt max_tokens) tCheck).2 },
         0)) ∧
    (∀ (useGeminiEnv use_gemini : Bool) (gs : GatewayState) (prompt : String)
       (max_tokens : ℕ) (tCheck t : ℚ) (attempts : List AttemptEnv),
      gs.cb.state = CBState.OPEN → gs.cb.last_failure_time = some t →
      (∀ env ∈ attempts, env.tGuard - t ≤ gs.cb.timeout) →
      (call_llm useGeminiEnv use_gemini prompt max_tokens tCheck gs attempts).1 =
        deterministic_fallback prompt ∧
      (call_llm useGeminiEnv use_gemini prompt max_tokens tCheck gs attempts).2.2 = 0) ∧
    (∀ (c : VertexClient) (prompt model : String) (tAcq : ℚ) (today : String)
       (envs : List VAttemptEnv),
      c.circuit_open = true →
      c.call_model prompt model tAcq today envs = (fallback_response prompt model, c, 0)) := by
  refine ⟨?_, ?_, fun c prompt model tAcq today envs h => vertex_open_short c h prompt model tAcq today envs⟩
  · intro gs prompt mt tCheck attempts h
    unfold call_llm
    simp [h]
  · intro ug uv gs prompt mt tCheck t attempts hst hlf hts
    unfold call_llm
    split
    · dsimp only
      split
      · have h := callLLMLoop_open prompt
          { rl := gs.rl, cb := gs.cb,
            bt := (gs.bt.check_budget (estimatedCost prompt mt) tCheck).2 }
          attempts t hst hlf hts
        exact ⟨h.1, h.2.1⟩
      · exact ⟨rfl, rfl⟩
    · exact ⟨rfl, rfl⟩

/-- Witness for C3: (a) a tracker already at its ceiling denies the estimated
cost and `call_llm` goes straight to the fallback; (b) with the breaker opened
at time 0 (60s cool-down) and one attempt whose guard fires at time 30,
`call_llm` returns the fallback with zero provider dispatches; (c) a client
with the `circuit_open` flag set short-circuits `call_model`. -/
theorem no_retry_against_provider_witness :
    call_llm true true "" 1000 0
        ⟨RateLimiter.init 60 0, CircuitBreaker.init 5 60, ⟨100, 100, 1000000⟩⟩ [] =
      (deterministic_fallback "",
       { (⟨RateLimiter.init 60 0, CircuitBreaker.init 5 60, ⟨100, 100, 1000000⟩⟩ : GatewayState) with
         bt := ((⟨100, 100, 1000000⟩ : BudgetTracker).check_budget (estimatedCost "" 1000) 0).2 },
       0) ∧
    (call_llm true true "p" 10 0
        ⟨RateLimiter.init 60 0, ⟨5, 60, 5, some 0, CBState.OPEN⟩, ⟨100, 0, 1000000⟩⟩
        [⟨0, 30, true, ⟨"", 0, "", ""⟩, 0, 0⟩]).1 = deterministic_fallback "p" ∧
    (call_llm true true "p" 10 0
        ⟨RateLimiter.init 60 0, ⟨5, 60, 5, some 0, CBState.OPEN⟩, ⟨100, 0, 1000000⟩⟩
        [⟨0, 30, true, ⟨"", 0, "", ""⟩, 0, 0⟩]).2.2 = 0 ∧
    (VertexClient.mk true false true 5 (some 0) 100 100 100 0 100 0 []).call_model "p" "m" 0
        "2026-10-12" [] =
      (fallback_response "p" "m",
       VertexClient.mk true false true 5 (some 0) 100 100 100 0 100 0 [], 0) := by
  have hw : pyWordCount "" = 0 := rfl
  have ha := no_retry_against_provider.1
    ⟨RateLimiter.init 60 0, CircuitBreaker.init 5 60, ⟨100, 100, 1000000⟩⟩ "" 1000 0 []
    (by norm_num [BudgetTracker.check_budget, BudgetTracker.resetIfNeeded, estimatedCost, hw])
  have hb := no_retry_against_provider.2.1 true true
    ⟨RateLimiter.init 60 0, ⟨5, 60, 5, some 0, CBState.OPEN⟩, ⟨100, 0, 1000000⟩⟩
    "p" 10 0 0 [⟨0, 30, true, ⟨"", 0, "", ""⟩, 0, 0⟩] rfl rfl
    (by intro e he; simp at he; subst he; norm_num)
  have hc := no_retry_against_provider.2.2
    (VertexClient.mk true false true 5 (some 0) 100 100 100 0 100 0 []) "p" "m" 0
    "2026-10-12" [] rfl
  exact ⟨ha, hb.1, hb.2, hc⟩

/-! ## Budget and cost-tracking theorems -/

/-- C9 (counterexample): `BudgetTracker.record_usage` does not return zero for
a model absent from its price table — it falls back to the default price of
0.01 USD per 1K tokens.  Recording 1000 tokens for the unknown model
"mystery-model" against a fresh tracker costs 0.01 and accrues 0.01 of daily
spend, contradicting "the cost recorded and returned for that call is zero". -/
theorem record_usage_unknown_model_not_zero :
    model_costs.lookup "mystery-model" = none ∧
    ((BudgetTracker.mk 100 0 86400).record_usage "mystery-model" 1000 0).1 = 1/100 ∧
    ((BudgetTracker.mk 100 0 86400).record_usage "mystery-model" 1000 0).2.daily_spent = 1/100 ∧
    ¬ ((1 : ℚ)/100 = 0) := by
  have hl : model_costs.lookup "mystery-model" = none := rfl
  refine ⟨hl, ?_, ?_, by norm_num⟩ <;>
    norm_num [BudgetTracker.record_usage, BudgetTracker.resetIfNeeded, hl]

/-- C9 (amended): the zero-cost rule for unrecognized models holds in
`VertexAIClient._track_cost` — an unknown model is logged and costs 0.0 with
no ledger mutation — while `BudgetTracker.record_usage` instead prices an
unknown model at the default 0.01 USD per 1K tokens and accrues that spend. -/
theorem unknown_model_cost (model : String) :
    (∀ (c : VertexClient) (input_tokens output_tokens : ℕ) (today : String),
      vertex_model_costs.lookup model = none →
      c.track_cost model input_tokens output_tokens today = (0, c)) ∧
    (∀ (bt : BudgetTracker) (tokens : ℕ) (now : ℚ),
      model_costs.lookup model = none →
      (bt.record_usage model tokens now).1 = ((tokens : ℚ) / 1000) * (1/100) ∧
      (bt.record_usage model tokens now).2.daily_spent =
        (bt.resetIfNeeded now).daily_spent + ((tokens : ℚ) / 1000) * (1/100)) := by
  constructor
  · intro c i o day h
    simp only [VertexClient.track_cost, h]
  · intro bt tokens now h
    constructor <;> simp [BudgetTracker.record_usage, h]

/-- Witness for C9's amended statement on the unknown model "mystery-model". -/
theorem unknown_model_cost_witness :
    (VertexClient.mk true false false 0 none 100 100 100 0 100 0 []).track_cost
        "mystery-model" 5 7 "2026-10-12" =
      (0, VertexClient.mk true false false 0 none 100 100 100 0 100 0 []) ∧
    ((BudgetTracker.mk 100 0 86400).record_usage "mystery-model" 1000 0).1 =
      ((1000 : ℚ) / 1000) * (1/100) :=
  ⟨(unknown_model_cost "mystery-model").1 _ 5 7 _ rfl,
   ((unknown_model_cost "mystery-model").2 (BudgetTracker.mk 100 0 86400) 1000 0 rfl).1⟩

/-- C10: once `circuit_open` is true it stays true for the life of the
instance: every `call_model` returns the fallback response with zero provider
dispatches and an unchanged client, so over any sequence of calls the flag
remains set and every result is fallback-sourced — the only code path that
clears the flag (a successful provider call) is unreachable while it is set. -/
theorem vertex_circuit_open_latched (c : VertexClient) (h : c.circuit_open = true) :
    (∀ (prompt model : String) (tAcq : ℚ) (today : String) (envs : List VAttemptEnv),
      c.call_model prompt model tAcq today envs = (fallback_response prompt model, c, 0)) ∧
    (∀ calls : List VCallArgs,
      ((c.call_seq calls).2).circuit_open = true ∧
      ∀ r ∈ (c.call_seq calls).1, r.1.source = "fallback" ∧ r.2 = 0) := by
  refine ⟨fun prompt model tAcq today envs =>
    vertex_open_short c h prompt model tAcq today envs, ?_⟩
  intro calls
  induction calls with
  | nil => exact ⟨h, by intro r hr; cases hr⟩
  | cons a rest ih =>
    have hshort := vertex_open_short c h a.prompt a.model a.tAcq a.today a.envs
    simp only [VertexClient.call_seq, hshort]
    refine ⟨ih.1, ?_⟩
    intro r hr
    rcases List.mem_cons.mp hr with hhead | htail
    · subst hhead; exact ⟨rfl, rfl⟩
    · exact ih.2 r htail

/-- Witness for C10: a client with the flag set stays latched across two
calls, both served by the fallback with zero provider dispatches. -/
theorem vertex_circuit_open_latched_witness :
    ((VertexClient.mk true false true 5 (some 0) 100 100 100 0 100 0 []).call_seq
        [⟨"p", "m", 1, "2026-10-12", []⟩, ⟨"q", "m", 2, "2026-10-12", []⟩]).2.circuit_open = true ∧
    ∀ r ∈ ((VertexClient.mk true false true 5 (some 0) 100 100 100 0 100 0 []).call_seq
        [⟨"p", "m", 1, "2026-10-12", []⟩, ⟨"q", "m", 2, "2026-10-12", []⟩]).1,
      r.1.source = "fallback" ∧ r.2 = 0 :=
  ((vertex_circuit_open_latched
    (VertexClient.mk true false true 5 (some 0) 100 100 100 0 100 0 []) rfl).2
    [⟨"p", "m", 1, "2026-10-12", []⟩, ⟨"q", "m", 2, "2026-10-12", []⟩])
